import Mathlib

/-!
Verification of the Adaptive Coaching Priority Engine of `src/vision/compare.py`.

The Python source is shallowly embedded: every numeric value is modelled as a
rational (floats never overflow in the ranges used; `np.std` is modelled
exactly with `Real.sqrt` where the scorer needs it), dictionaries become
association lists, and the classification / level strings are kept as the
literal strings the source uses.  Each definition mirrors one Python function
of `src/vision/compare.py` and keeps its name.
-/

namespace CoachAI

/-- `pat` occurs as a contiguous substring of `s` (Python's `pat in s`). -/
def charsContain (s pat : List Char) : Bool :=
  match s with
  | [] => pat.isEmpty
  | _ :: t => pat.isPrefixOf s || charsContain t pat

/-- Python's `pat in s` on strings. -/
def strContains (s pat : String) : Bool :=
  charsContain s.data pat.data

/-- Python's `str.lower()` (the metric and phase names are ASCII). -/
def lowerStr (s : String) : String :=
  ⟨s.data.map Char.toLower⟩

/-- Result record of `compute_issue_priority_score` (the returned dict;
the `components` sub-dict repeats the five fields and is not duplicated). -/
structure PriorityScore where
  total_score : ℚ
  severity : ℚ
  reliability : ℚ
  phase_importance : ℚ
  consistency : ℚ
  progress_modifier : ℚ
  deriving Repr, DecidableEq

/-- `compute_issue_priority_score` (compare.py:803-915). -/
def compute_issue_priority_score (metric_name : String) (deviation : ℚ)
    (phase : String) (reliability_level : String)
    (phase_stability_score : ℚ) (progress_delta : ℚ) : PriorityScore :=
  let abs_deviation := |deviation|
  let severity : ℚ :=
    if strContains (lowerStr metric_name) "angle"
        || strContains (lowerStr metric_name) "rotation" then
      if abs_deviation ≥ 80 then 40
      else if abs_deviation ≥ 50 then 35
      else if abs_deviation ≥ 30 then 30
      else if abs_deviation ≥ 20 then 20
      else if abs_deviation ≥ 10 then 10
      else 5
    else
      if abs_deviation ≥ 4 then 40
      else if abs_deviation ≥ 3 then 30
      else if abs_deviation ≥ 2 then 20
      else if abs_deviation ≥ 1 then 10
      else 5
  let reliability_points : ℚ :=
    if reliability_level = "High" then 25
    else if reliability_level = "Medium" then 15
    else if reliability_level = "Low" then 5
    else 15
  let phase_points : ℚ :=
    if (lowerStr phase) = "contact" then 20
    else if (lowerStr phase) = "load" then 15
    else if (lowerStr phase) = "follow_through" then 12
    else if (lowerStr phase) = "preparation" then 8
    else 10
  let consistency_points : ℚ := phase_stability_score / 100 * 15
  let progress_mod : ℚ :=
    if progress_delta > 5 then min 10 progress_delta
    else if progress_delta < -5 then max (-10) progress_delta
    else 0
  { total_score := severity + reliability_points + phase_points
      + consistency_points + progress_mod
    severity := severity
    reliability := reliability_points
    phase_importance := phase_points
    consistency := consistency_points
    progress_modifier := progress_mod }

/-- Result record of `classify_coaching_issue`. -/
structure IssueClassification where
  classification : String
  recommendation : String
  is_severe : Bool
  is_reliable : Bool
  is_improving : Bool
  is_worsening : Bool
  is_consistent : Bool
  deriving Repr, DecidableEq

/-- `classify_coaching_issue` (compare.py:918-995).  `progress_delta` is
`none` when the Python caller passes `None`. -/
def classify_coaching_issue (metric_name : String) (current_deviation : ℚ)
    (reliability_level : String) (progress_delta : Option ℚ)
    (phase_stability : ℚ) : IssueClassification :=
  let abs_dev := |current_deviation|
  let is_severe : Bool :=
    if strContains (lowerStr metric_name) "angle" then abs_dev ≥ 50
    else abs_dev ≥ 3
  let is_moderate : Bool :=
    if strContains (lowerStr metric_name) "angle" then abs_dev ≥ 20
    else abs_dev ≥ 3/2
  let is_reliable : Bool :=
    reliability_level = "High" || reliability_level = "Medium"
  let is_improving : Bool :=
    match progress_delta with
    | none => false
    | some d => d < -5
  let is_worsening : Bool :=
    match progress_delta with
    | none => false
    | some d => d > 5
  let is_consistent : Bool := phase_stability ≥ 70
  let cr :=
    if is_severe && reliability_level = "High" && is_consistent then
      if is_worsening then
        ("CRITICAL", "Address immediately - severe issue getting worse")
      else
        ("CRITICAL", "Address immediately - severe and consistent issue")
    else if is_severe && is_reliable then
      ("PRIORITY", "Focus on this - significant deviation from pro technique")
    else if is_moderate && is_reliable && !is_improving then
      ("PRIORITY", "Important area for improvement")
    else if is_improving && is_reliable then
      ("MONITOR", "Continue current approach - showing improvement")
    else if reliability_level = "Low" && !is_severe then
      ("SUPPRESS", "Low measurement confidence - may not be actionable")
    else if is_moderate && reliability_level = "Low" then
      ("MONITOR", "Verify measurement quality before focusing on this")
    else
      ("MONITOR", "Track progress - minor issue or improving")
  { classification := cr.1
    recommendation := cr.2
    is_severe := is_severe
    is_reliable := is_reliable
    is_improving := is_improving
    is_worsening := is_worsening
    is_consistent := is_consistent }

/-- Modelled from the spec (section 4.5): the seven decision rules, evaluated
in order with first match winning, over the derived boolean inputs.  This is
the second, spec-following definition used to state refinement claim C1. -/
def specSevenRules (is_severe is_moderate : Bool) (reliability_level : String)
    (is_improving _is_worsening is_consistent : Bool) : String :=
  let reliable : Bool :=
    reliability_level = "High" || reliability_level = "Medium"
  if is_severe && reliability_level = "High" && is_consistent then "CRITICAL"
  else if is_severe && reliable then "PRIORITY"
  else if is_moderate && reliable && !is_improving then "PRIORITY"
  else if is_improving && reliable then "MONITOR"
  else if reliability_level = "Low" && !is_severe then "SUPPRESS"
  else if is_moderate && reliability_level = "Low" then "MONITOR"
  else "MONITOR"

/-- The `is_severe` input of the classifier (compare.py:947, and spec 4.5:
angle metrics at 50°, everything else at 3.0). -/
def severe_flag (metric_name : String) (deviation : ℚ) : Bool :=
  if strContains (lowerStr metric_name) "angle" then |deviation| ≥ 50
  else |deviation| ≥ 3

/-- The `is_moderate` input of the classifier (compare.py:948). -/
def moderate_flag (metric_name : String) (deviation : ℚ) : Bool :=
  if strContains (lowerStr metric_name) "angle" then |deviation| ≥ 20
  else |deviation| ≥ 3/2

/-- The `is_improving` input of the classifier (compare.py:954). -/
def improving_flag (progress_delta : Option ℚ) : Bool :=
  match progress_delta with
  | none => false
  | some d => d < -5

/-- The `is_worsening` input of the classifier (compare.py:955). -/
def worsening_flag (progress_delta : Option ℚ) : Bool :=
  match progress_delta with
  | none => false
  | some d => d > 5

/-- The `is_consistent` input of the classifier (compare.py:958). -/
def consistent_flag (phase_stability : ℚ) : Bool :=
  phase_stability ≥ 70

/-- One element of the `ranked_cues` input list of
`generate_adaptive_coaching_focus`: the 5-tuple the source unpacks by index
(`cue_text, phase_name, metric_name, deviation, phase`). -/
structure RankedCue where
  cue_text : String
  phase_name : String
  metric_name : String
  deviation : ℚ
  phase : String
  deriving Repr, DecidableEq

/-- One element of `all_adaptive_cues` (the per-cue dict built in
`generate_adaptive_coaching_focus`); `priority_components` is the same
`PriorityScore` record. -/
structure AdaptiveCue where
  cue_text : String
  metric : String
  phase : String
  deviation : ℚ
  priority_score : ℚ
  priority_components : PriorityScore
  classification : String
  recommendation : String
  reliability : String
  phase_stability : ℚ
  progress_delta : ℚ
  deriving Repr, DecidableEq

/-- The sort key relation of `adaptive_cues.sort(key=priority_score,
reverse=True)`: `a` may precede `b` when its score is at least `b`'s. -/
def cueGE (a b : AdaptiveCue) : Prop :=
  b.priority_score ≤ a.priority_score

instance : DecidableRel cueGE := fun a b =>
  inferInstanceAs (Decidable (b.priority_score ≤ a.priority_score))

instance : IsTotal AdaptiveCue cueGE :=
  ⟨fun a b => le_total b.priority_score a.priority_score⟩

instance : IsTrans AdaptiveCue cueGE :=
  ⟨fun _ _ _ h1 h2 => le_trans h2 h1⟩

/-- Result dict of `generate_adaptive_coaching_focus`. -/
structure AdaptiveFocus where
  all_adaptive_cues : List AdaptiveCue
  critical : List AdaptiveCue
  priority : List AdaptiveCue
  monitor : List AdaptiveCue
  suppressed : List AdaptiveCue
  top_3 : List AdaptiveCue
  deriving Repr, DecidableEq

/-- The per-cue body of the loop at compare.py:1021-1077: defaults for the
three lookups, then scoring and classification.  The `user_reliability`
dict is modelled by its metric→level projection (only `['level']` is read),
`user_phase_stability` by phase→overall_score, and
`progress_deltas['phase_scores']` by phase→delta; an absent dict (`None`)
is the empty association list, with the same lookup-miss defaults as the
source. -/
def build_adaptive_cue (user_reliability : List (String × String))
    (user_phase_stability : List (String × ℚ))
    (progress_deltas : List (String × ℚ)) (cue_data : RankedCue) :
    AdaptiveCue :=
  let reliability_level :=
    (user_reliability.lookup cue_data.metric_name).getD "Medium"
  let phase_stability :=
    (user_phase_stability.lookup cue_data.phase).getD 75
  let progress_delta :=
    (progress_deltas.lookup cue_data.phase).getD 0
  let priority_data := compute_issue_priority_score cue_data.metric_name
    cue_data.deviation cue_data.phase reliability_level phase_stability
    progress_delta
  let classification_data := classify_coaching_issue cue_data.metric_name
    cue_data.deviation reliability_level (some progress_delta)
    phase_stability
  { cue_text := cue_data.cue_text
    metric := cue_data.metric_name
    phase := cue_data.phase
    deviation := cue_data.deviation
    priority_score := priority_data.total_score
    priority_components := priority_data
    classification := classification_data.classification
    recommendation := classification_data.recommendation
    reliability := reliability_level
    phase_stability := phase_stability
    progress_delta := progress_delta }

/-- `generate_adaptive_coaching_focus` (compare.py:998-1095).  Python's
stable `sort(reverse=True)` on the score key is `List.insertionSort` with
the ≥-on-score relation, which is stable. -/
def generate_adaptive_coaching_focus (ranked_cues : List RankedCue)
    (user_reliability : List (String × String))
    (user_phase_stability : List (String × ℚ))
    (progress_deltas : List (String × ℚ)) : AdaptiveFocus :=
  let adaptive_cues := ranked_cues.map
    (build_adaptive_cue user_reliability user_phase_stability
      progress_deltas)
  let sorted := adaptive_cues.insertionSort cueGE
  { all_adaptive_cues := sorted
    critical := sorted.filter (fun c => c.classification = "CRITICAL")
    priority := sorted.filter (fun c => c.classification = "PRIORITY")
    monitor := sorted.filter (fun c => c.classification = "MONITOR")
    suppressed := sorted.filter (fun c => c.classification = "SUPPRESS")
    top_3 := sorted.take 3 }

/-- One drill record of the knowledge base; `light/moderate/intensive` are
the entries of the `intensity` sub-dict. -/
structure Drill where
  name : String
  description : String
  target_metrics : List String
  target_phases : List String
  light : String
  moderate : String
  intensive : String
  rationale : String
  deriving Repr, DecidableEq

/-- `get_drill_knowledge_base` (compare.py:1102-1278): the static catalog,
as an association list category → drills. -/
def get_drill_knowledge_base : List (String × List Drill) :=
  [("hip_rotation",
    [{ name := "Medicine Ball Rotational Throws"
       description := "Stand sideways to wall, rotate hips explosively to throw medicine ball"
       target_metrics := ["hip_rotation"]
       target_phases := ["load", "contact"]
       light := "2 sets x 8 reps, 4-6 lbs ball"
       moderate := "3 sets x 10 reps, 6-8 lbs ball"
       intensive := "4 sets x 12 reps, 8-10 lbs ball, daily"
       rationale := "Builds rotational power and hip coiling mechanics" },
     { name := "Hip Rotation Shadow Swings"
       description := "Practice stroke focusing solely on hip rotation, exaggerate the movement"
       target_metrics := ["hip_rotation"]
       target_phases := ["load", "contact"]
       light := "50 reps, slow tempo"
       moderate := "100 reps, match tempo"
       intensive := "200 reps daily, with resistance band"
       rationale := "Isolates hip rotation to build muscle memory" }]),
   ("elbow_angles",
    [{ name := "Wall Contact Drill"
       description := "Stand close to wall, practice stroke keeping elbows compact and close to body"
       target_metrics := ["left_elbow_angle", "right_elbow_angle"]
       target_phases := ["contact", "load"]
       light := "3 sets x 10 reps"
       moderate := "5 sets x 15 reps"
       intensive := "10 sets x 20 reps, add resistance bands"
       rationale := "Enforces proper elbow position and compact arm structure" },
     { name := "Elbow-to-Body Connection"
       description := "Hold small towel between elbow and torso during shadow strokes"
       target_metrics := ["left_elbow_angle", "right_elbow_angle"]
       target_phases := ["preparation", "load", "contact"]
       light := "50 reps"
       moderate := "100 reps"
       intensive := "200 reps, progress to live balls"
       rationale := "Creates kinesthetic awareness of proper elbow position" }]),
   ("knee_stability",
    [{ name := "Split-Step to Stance Drill"
       description := "Practice split-step followed by balanced backhand stance, hold for 3 seconds"
       target_metrics := ["left_knee_angle", "right_knee_angle"]
       target_phases := ["preparation", "load"]
       light := "2 sets x 10 reps"
       moderate := "3 sets x 15 reps"
       intensive := "5 sets x 20 reps with weights"
       rationale := "Builds lower body stability and balance" }]),
   ("stance_width",
    [{ name := "Ladder Footwork Drill"
       description := "Use agility ladder, practice split-stepping into consistent stance width"
       target_metrics := ["stance_width_normalized"]
       target_phases := ["preparation"]
       light := "3 minutes"
       moderate := "5 minutes"
       intensive := "10 minutes with shadow strokes"
       rationale := "Develops consistent footwork and stance positioning" },
     { name := "Cone Placement Training"
       description := "Place cones at optimal foot positions, practice hitting from marked stance"
       target_metrics := ["stance_width_normalized"]
       target_phases := ["preparation", "load"]
       light := "20 balls"
       moderate := "50 balls"
       intensive := "100 balls across multiple sessions"
       rationale := "Provides visual feedback for proper stance width" }]),
   ("spine_lean",
    [{ name := "Mirror Posture Check"
       description := "Practice stroke in front of mirror, focus on maintaining proper spine angle"
       target_metrics := ["spine_lean"]
       target_phases := ["preparation", "load", "contact"]
       light := "5 minutes daily"
       moderate := "10 minutes daily"
       intensive := "15 minutes 2x daily with video recording"
       rationale := "Visual feedback for posture correction" }]),
   ("shoulder_stability",
    [{ name := "Resistance Band Shoulder Rotations"
       description := "Use resistance bands to strengthen shoulder stability through stroke motion"
       target_metrics := ["left_shoulder_angle", "right_shoulder_angle"]
       target_phases := ["preparation", "load"]
       light := "2 sets x 10 reps, light band"
       moderate := "3 sets x 15 reps, medium band"
       intensive := "4 sets x 20 reps, heavy band"
       rationale := "Builds shoulder strength and stability" }]),
   ("general_technique",
    [{ name := "Slow-Motion Shadow Strokes"
       description := "Execute full stroke in slow motion, focus on feeling each phase"
       target_metrics := ["all"]
       target_phases := ["all"]
       light := "25 reps"
       moderate := "50 reps"
       intensive := "100 reps with video analysis"
       rationale := "Builds muscle memory and movement awareness" },
     { name := "Video Review Sessions"
       description := "Record yourself, compare side-by-side with pro reference"
       target_metrics := ["all"]
       target_phases := ["all"]
       light := "1x per week"
       moderate := "2x per week"
       intensive := "3x per week with detailed notes"
       rationale := "Provides objective feedback on progress" }])]

/-- `map_metric_to_drill_category` (compare.py:1281-1306). -/
def map_metric_to_drill_category (metric_name : String) : String :=
  let metric_lower := (lowerStr metric_name)
  if strContains metric_lower "hip" && strContains metric_lower "rotation" then
    "hip_rotation"
  else if strContains metric_lower "elbow" then "elbow_angles"
  else if strContains metric_lower "knee" then "knee_stability"
  else if strContains metric_lower "stance" || strContains metric_lower "width" then
    "stance_width"
  else if strContains metric_lower "spine" || strContains metric_lower "lean" then
    "spine_lean"
  else if strContains metric_lower "shoulder" then "shoulder_stability"
  else "general_technique"

/-- One entry of the `critical_drills` / `priority_drills` /
`maintenance_drills` lists.  The presentation-only `reason` string (built
with Python float formatting) carries no decision logic and is omitted. -/
structure DrillRecommendation where
  issue_metric : String
  issue_phase : String
  drill_name : String
  drill_description : String
  intensity_level : String
  prescription : String
  rationale : String
  priority_score : ℚ
  urgency : String
  deriving Repr, DecidableEq

/-- Result dict of `generate_adaptive_drill_recommendations`. -/
structure DrillRecommendations where
  critical_drills : List DrillRecommendation
  priority_drills : List DrillRecommendation
  maintenance_drills : List DrillRecommendation
  suppressed_count : ℕ
  deriving Repr, DecidableEq

/-- The three selection loops of `generate_adaptive_drill_recommendations`
(compare.py:1338-1404), before the general-technique fallback is applied. -/
def drill_recommendations_raw (adaptive_focus : AdaptiveFocus)
    (drill_kb : List (String × List Drill)) : DrillRecommendations :=
  let critical_drills := adaptive_focus.critical.filterMap (fun issue =>
    let category := map_metric_to_drill_category issue.metric
    match (drill_kb.lookup category).getD [] with
    | [] => none
    | drill :: _ => some
      { issue_metric := issue.metric
        issue_phase := issue.phase
        drill_name := drill.name
        drill_description := drill.description
        intensity_level := "intensive"
        prescription := drill.intensive
        rationale := drill.rationale
        priority_score := issue.priority_score
        urgency := "HIGH" })
  let priority_drills := (adaptive_focus.priority.take 3).filterMap
    (fun issue =>
      let category := map_metric_to_drill_category issue.metric
      match (drill_kb.lookup category).getD [] with
      | [] => none
      | [d] => some
        { issue_metric := issue.metric
          issue_phase := issue.phase
          drill_name := d.name
          drill_description := d.description
          intensity_level := "moderate"
          prescription := d.moderate
          rationale := d.rationale
          priority_score := issue.priority_score
          urgency := "MODERATE" }
      | _ :: d :: _ => some
        { issue_metric := issue.metric
          issue_phase := issue.phase
          drill_name := d.name
          drill_description := d.description
          intensity_level := "moderate"
          prescription := d.moderate
          rationale := d.rationale
          priority_score := issue.priority_score
          urgency := "MODERATE" })
  let maintenance_drills := (adaptive_focus.monitor.take 2).filterMap
    (fun issue =>
      if issue.progress_delta < (-5 : ℚ) then
        let category := map_metric_to_drill_category issue.metric
        match (drill_kb.lookup category).getD [] with
        | [] => none
        | drill :: _ => some
          { issue_metric := issue.metric
            issue_phase := issue.phase
            drill_name := drill.name
            drill_description := drill.description
            intensity_level := "light"
            prescription := drill.light
            rationale := drill.rationale
            priority_score := issue.priority_score
            urgency := "MAINTENANCE" }
      else none)
  { critical_drills := critical_drills
    priority_drills := priority_drills
    maintenance_drills := maintenance_drills
    suppressed_count := adaptive_focus.suppressed.length }

/-- The fallback drill injected at compare.py:1407-1420: the first
`general_technique` drill of the knowledge base at moderate intensity. -/
def fallback_general_drill (drill_kb : List (String × List Drill)) :
    Option DrillRecommendation :=
  match (drill_kb.lookup "general_technique").getD [] with
  | [] => none
  | general :: _ => some
    { issue_metric := "general"
      issue_phase := "all"
      drill_name := general.name
      drill_description := general.description
      intensity_level := "moderate"
      prescription := general.moderate
      rationale := general.rationale
      priority_score := 50
      urgency := "MODERATE" }

/-- `generate_adaptive_drill_recommendations` (compare.py:1309-1422):
the three selection loops followed by the general-technique fallback. -/
def generate_adaptive_drill_recommendations (adaptive_focus : AdaptiveFocus)
    (drill_kb : List (String × List Drill)) : DrillRecommendations :=
  let recs := drill_recommendations_raw adaptive_focus drill_kb
  if recs.critical_drills.isEmpty && recs.priority_drills.isEmpty then
    match fallback_general_drill drill_kb with
    | none => recs
    | some d => { recs with priority_drills := recs.priority_drills ++ [d] }
  else recs

/-- `find_previous_session` (compare.py:231-266).  `dirs` lists the names of
the directories under the base output directory (an absent base directory is
the empty list); `current_session_id` is `none` when Python receives `None`
(a string never equals `None`, so no name is then excluded).  Python string
comparison is code-point lexicographic, i.e. the order on `List Char`;
`sort(reverse=True)` followed by `[0]` is descending insertion sort followed
by `head?`. -/
def session_candidates (dirs : List String)
    (current_session_id : Option String) : List String :=
  dirs.filter (fun n =>
    decide (some n ≠ current_session_id) && decide (n.length = 19)
      && decide (n.data.get? 10 = some '_'))

/-- The reverse-sort key relation on session names (Python string order =
code-point lexicographic order on the character list). -/
def strGE (a b : String) : Prop :=
  b.data ≤ a.data

instance : DecidableRel strGE := fun a b =>
  inferInstanceAs (Decidable (b.data ≤ a.data))

instance : IsTotal String strGE := ⟨fun a b => le_total b.data a.data⟩

instance : IsTrans String strGE := ⟨fun _ _ _ h1 h2 => le_trans h2 h1⟩

def find_previous_session (dirs : List String)
    (current_session_id : Option String) : Option String :=
  (List.insertionSort strGE
    (session_candidates dirs current_session_id)).head?

/-- One persisted outcome record (the dict built in `track_drill_outcomes`,
compare.py:1505-1518). -/
structure OutcomeRecord where
  previous_session_id : String
  current_session_id : String
  metric_name : String
  phase : String
  drill_name : String
  intensity : String
  classification : String
  pre_value : ℚ
  post_value : ℚ
  delta : ℚ
  reliability : String
  timestamp : String
  deriving Repr, DecidableEq

/-- The on-disk state of `drill_outcomes.json`: missing, unparseable, or a
well-formed JSON array of records. -/
inductive StoreFile where
  | absent : StoreFile
  | corrupt : StoreFile
  | records : List OutcomeRecord → StoreFile
  deriving Repr, DecidableEq

/-- The load path of `save_drill_outcomes` (compare.py:1549-1557): a missing
file yields the empty history and a parse failure resets to the empty
history. -/
def load_existing_outcomes : StoreFile → List OutcomeRecord
  | .absent => []
  | .corrupt => []
  | .records rs => rs

/-- `save_drill_outcomes` (compare.py:1525-1571).  `write_ok` is whether the
final write succeeds (an I/O failure raises in Python and is caught, leaving
the function to return `False`); the function returns the resulting store
state and the boolean result, and never propagates an error. -/
def save_drill_outcomes (outcomes : List OutcomeRecord) (store : StoreFile)
    (write_ok : Bool) : StoreFile × Bool :=
  if outcomes.isEmpty then (store, true)
  else
    let existing_outcomes := load_existing_outcomes store
    if write_ok then (StoreFile.records (existing_outcomes ++ outcomes), true)
    else (store, false)

/-- Insert one record into the drill-name groups, preserving Python's dict
insertion order (first appearance) and per-group record order. -/
def add_outcome_to_groups (acc : List (String × List OutcomeRecord))
    (o : OutcomeRecord) : List (String × List OutcomeRecord) :=
  if (acc.lookup o.drill_name).isSome then
    acc.map (fun p => if p.1 = o.drill_name then (p.1, p.2 ++ [o]) else p)
  else acc ++ [(o.drill_name, [o])]

/-- The grouping loop of `compute_drill_confidence_scores`
(compare.py:1686-1700). -/
def group_outcomes_by_drill (outcomes : List OutcomeRecord) :
    List (String × List OutcomeRecord) :=
  outcomes.foldl add_outcome_to_groups []

/-- The per-drill result record of `compute_drill_confidence_scores`. -/
structure DrillConfidence where
  usage_count : ℕ
  avg_delta : ℝ
  std_delta : ℝ
  high_reliability_ratio : ℝ
  consistency : ℝ
  confidence_score : ℝ
  confidence_level : String

/-- The improvement component at compare.py:1741:
`max(0.0, min(1.0, 0.5 - avg_delta / 40.0))`. -/
noncomputable def improvement_score_of (avg_delta : ℝ) : ℝ :=
  max 0 (min 1 (1/2 - avg_delta / 40))

/-- The sample-size component at compare.py:1751: `min(1.0, count / 5.0)`. -/
noncomputable def sample_score_of (usage_count : ℕ) : ℝ :=
  min 1 ((usage_count : ℝ) / 5)

/-- The consistency component at compare.py:1725-1733. -/
noncomputable def consistency_of (avg_delta std_delta : ℝ) : ℝ :=
  if |avg_delta| > 1/10 then
    max 0 (1 - min (std_delta / |avg_delta|) 1)
  else
    max 0 (1 - min (std_delta / 10) 1)

/-- The per-group body of `compute_drill_confidence_scores`
(compare.py:1705-1777); `np.mean`/`np.std` are the population mean and
standard deviation of the group's deltas. -/
noncomputable def score_drill_group (records : List OutcomeRecord) :
    DrillConfidence :=
  let deltas := records.map (fun r => r.delta)
  let usage_count := deltas.length
  let avg_delta : ℝ := (deltas.map (fun d : ℚ => (d : ℝ))).sum / usage_count
  let std_delta : ℝ :=
    if 1 < deltas.length then
      Real.sqrt ((deltas.map (fun d : ℚ => ((d : ℝ) - avg_delta) ^ 2)).sum
        / usage_count)
    else 0
  let high_reliability_count :=
    (records.filter (fun r => r.reliability = "High")).length
  let high_reliability_ratio : ℝ :=
    if 0 < usage_count then (high_reliability_count : ℝ) / usage_count else 0
  let consistency : ℝ := consistency_of avg_delta std_delta
  let confidence_score : ℝ := 40/100 * improvement_score_of avg_delta
    + 25/100 * high_reliability_ratio + 25/100 * consistency
    + 10/100 * sample_score_of usage_count
  let confidence_level : String :=
    if confidence_score ≥ 75/100 then "High"
    else if confidence_score ≥ 50/100 then "Medium"
    else "Low"
  { usage_count := usage_count
    avg_delta := avg_delta
    std_delta := std_delta
    high_reliability_ratio := high_reliability_ratio
    consistency := consistency
    confidence_score := confidence_score
    confidence_level := confidence_level }

/-- `compute_drill_confidence_scores` (compare.py:1638-1783): a missing file
returns the empty result, a parse failure is caught and returns the empty
result, and otherwise every drill group is scored. -/
noncomputable def compute_drill_confidence_scores (store : StoreFile) :
    List (String × DrillConfidence) :=
  match store with
  | .absent => []
  | .corrupt => []
  | .records outcomes =>
    if outcomes.isEmpty then []
    else (group_outcomes_by_drill outcomes).map
      (fun p => (p.1, score_drill_group p.2))

/-- The fixed metric list of `compute_confidence_statistics`
(compare.py:602-612). -/
def key_metrics : List String :=
  ["left_shoulder_angle", "right_shoulder_angle", "left_elbow_angle",
   "right_elbow_angle", "left_knee_angle", "right_knee_angle",
   "hip_rotation", "spine_lean", "stance_width_normalized"]

/-- The per-metric statistics of `compute_confidence_statistics` that later
stages read (`std` and `cv`; `mean` feeds `cv`).  The `min`/`max`/`range`
entries of the Python dict are presentation-only and never read
downstream. -/
structure MetricStats where
  mean : ℝ
  std : ℝ
  cv : ℝ

/-- The per-metric body of `compute_confidence_statistics`
(compare.py:616-628): the column must exist, missing values are dropped, a
metric with zero non-missing samples produces no entry, and otherwise the
population mean/std and the coefficient of variation (`std/mean`, 0 when
the mean is 0) are recorded. -/
noncomputable def metric_stats_entry
    (features : List (String × List (Option ℚ))) (metric : String) :
    Option (String × MetricStats) :=
  match features.lookup metric with
  | none => none
  | some col =>
    let values := col.filterMap id
    if values.isEmpty then none
    else
      let n : ℝ := values.length
      let mean : ℝ := ((values.map (fun v : ℚ => (v : ℝ))).sum) / n
      let std : ℝ :=
        Real.sqrt (((values.map (fun v : ℚ => ((v : ℝ) - mean) ^ 2)).sum) / n)
      let cv : ℝ := if mean ≠ 0 then std / mean else 0
      some (metric, { mean := mean, std := std, cv := cv })

/-- `compute_confidence_statistics` (compare.py:588-630).  The features
table is modelled by its columns: metric name → per-frame optional values
(`none` = NaN, dropped by `dropna`). -/
noncomputable def compute_confidence_statistics
    (features : List (String × List (Option ℚ))) :
    List (String × MetricStats) :=
  key_metrics.filterMap (metric_stats_entry features)

/-- One entry of the `assess_measurement_reliability` result. -/
structure ReliabilityEntry where
  level : String
  description : String
  cv : ℝ
  std : ℝ

/-- The per-metric body of `assess_measurement_reliability`
(compare.py:648-701).  The branch is on `'angle' in metric` (no lowercasing
in the source); the thresholds `0.15` and `0.30` are the rationals 3/20 and
3/10. -/
noncomputable def assess_entry (metric : String) (stats : MetricStats) :
    ReliabilityEntry :=
  if strContains metric "angle" then
    if stats.std < 10 then
      { level := "High", description := "Very stable measurement"
        cv := stats.cv, std := stats.std }
    else if stats.std < 20 then
      { level := "Medium", description := "Moderate variation"
        cv := stats.cv, std := stats.std }
    else
      { level := "Low"
        description := "High variation - measurement may be noisy"
        cv := stats.cv, std := stats.std }
  else
    if stats.cv < 3/20 then
      { level := "High", description := "Very stable measurement"
        cv := stats.cv, std := stats.std }
    else if stats.cv < 3/10 then
      { level := "Medium", description := "Moderate variation"
        cv := stats.cv, std := stats.std }
    else
      { level := "Low"
        description := "High variation - measurement may be noisy"
        cv := stats.cv, std := stats.std }

/-- `assess_measurement_reliability` (compare.py:633-703). -/
noncomputable def assess_measurement_reliability
    (confidence_stats : List (String × MetricStats)) :
    List (String × ReliabilityEntry) :=
  confidence_stats.map (fun p => (p.1, assess_entry p.1 p.2))

/-- Modelled from the claim C4 wording: angle AND rotation metrics classified
by standard deviation (std < 10 High, 10–20 Medium, above 20 Low); ratio and
other metrics by coefficient of variation (cv < 0.15 High, 0.15–0.30 Medium,
0.30 or more Low). -/
noncomputable def claimC4_level (metric : String) (std cv : ℝ) : String :=
  if strContains metric "angle" || strContains metric "rotation" then
    if std < 10 then "High"
    else if std ≤ 20 then "Medium"
    else "Low"
  else
    if cv < 3/20 then "High"
    else if cv < 3/10 then "Medium"
    else "Low"

/-- The amended C4 classification rule: metrics whose name contains `angle`
use the standard-deviation ladder (std < 10 High, 10 ≤ std < 20 Medium,
std ≥ 20 Low); every other metric (including rotation metrics such as
`hip_rotation`) uses the coefficient-of-variation ladder. -/
noncomputable def amendedC4_level (metric : String) (std cv : ℝ) : String :=
  if strContains metric "angle" then
    if std < 10 then "High"
    else if std < 20 then "Medium"
    else "Low"
  else
    if cv < 3/20 then "High"
    else if cv < 3/10 then "Medium"
    else "Low"

/-- A record of the claim C3 scenario: drill "X", the given delta, all at
High reliability (the remaining fields are concrete bookkeeping values the
scorer never reads). -/
def claim3_record (delta : ℚ) : OutcomeRecord :=
  { previous_session_id := "2025-01-01_00-00-00"
    current_session_id := "2025-01-02_00-00-00"
    metric_name := "hip_rotation"
    phase := "contact"
    drill_name := "X"
    intensity := "moderate"
    classification := "HIGH"
    pre_value := 0
    post_value := delta
    delta := delta
    reliability := "High"
    timestamp := "2025-01-02T00:00:00" }

/-- The claim C3 history: exactly 5 records for drill "X" with deltas
[-10,-12,-8,-11,-9], all High reliability. -/
def claim3_records : List OutcomeRecord :=
  [claim3_record (-10), claim3_record (-12), claim3_record (-8),
    claim3_record (-11), claim3_record (-9)]

/-- The claim C3 store holding exactly those 5 records. -/
def claim3_store : StoreFile :=
  .records claim3_records

/-- The claim C4 counterexample features table: a single `hip_rotation`
column with samples 175, 175, 225, 225 (mean 200, population std exactly 25,
cv exactly 1/8). -/
def claim4_features : List (String × List (Option ℚ)) :=
  [("hip_rotation", [some 175, some 175, some 225, some 225])]

/-! ## Theorems -/

/-- Every classification the Issue Classifier emits is one of the four
states. -/
lemma classify_classification_mem (metric_name : String)
    (current_deviation : ℚ) (reliability_level : String)
    (progress_delta : Option ℚ) (phase_stability : ℚ) :
    (classify_coaching_issue metric_name current_deviation reliability_level
        progress_delta phase_stability).classification
      ∈ (["CRITICAL", "PRIORITY", "MONITOR", "SUPPRESS"] : List String) := by
  simp only [classify_coaching_issue]
  split_ifs <;> simp

/-- C1: for every input, the Issue Classifier returns exactly one of
CRITICAL / PRIORITY / MONITOR / SUPPRESS, its result agrees with the spec's
seven rules evaluated in order with first match winning, and whenever the
issue is severe, reliability is High and phase_stability ≥ 70 the result is
CRITICAL (independently of the worsening flag, which `specSevenRules`
ignores). -/
theorem claim1_issue_classifier_rules (metric_name : String)
    (current_deviation : ℚ) (reliability_level : String)
    (progress_delta : Option ℚ) (phase_stability : ℚ) :
    (classify_coaching_issue metric_name current_deviation reliability_level
        progress_delta phase_stability).classification =
      specSevenRules (severe_flag metric_name current_deviation)
        (moderate_flag metric_name current_deviation) reliability_level
        (improving_flag progress_delta) (worsening_flag progress_delta)
        (consistent_flag phase_stability)
    ∧ (classify_coaching_issue metric_name current_deviation
        reliability_level progress_delta phase_stability).classification
        ∈ (["CRITICAL", "PRIORITY", "MONITOR", "SUPPRESS"] : List String)
    ∧ (severe_flag metric_name current_deviation = true →
        reliability_level = "High" → 70 ≤ phase_stability →
        (classify_coaching_issue metric_name current_deviation
          reliability_level progress_delta phase_stability).classification =
          "CRITICAL") := by
  refine ⟨?_, classify_classification_mem _ _ _ _ _, ?_⟩
  · simp only [classify_coaching_issue, specSevenRules, severe_flag,
      moderate_flag, improving_flag, worsening_flag, consistent_flag]
    split_ifs <;> rfl
  · intro h1 h2 h3
    subst h2
    simp only [classify_coaching_issue, severe_flag] at *
    simp [h1, h3]
    split_ifs <;> rfl

/-- Witness for C1 at a concrete severe, High-reliability, consistent
input. -/
theorem claim1_issue_classifier_rules_witness :
    (classify_coaching_issue "left_elbow_angle" 55 "High" none
      80).classification = "CRITICAL" :=
  (claim1_issue_classifier_rules "left_elbow_angle" 55 "High" none 80).2.2
    (by decide) rfl (by decide)

/-- C2: the spec's worked scenario.  `hip_rotation` at deviation 60 in the
contact phase with High reliability, stability 90 and progress +8 scores
severity 35, reliability 25, phase importance 20, consistency 13.5,
progress modifier +8, total 101.5, and the classifier marks it CRITICAL. -/
theorem claim2_hip_rotation_scenario :
    compute_issue_priority_score "hip_rotation" 60 "contact" "High" 90 8 =
      { total_score := 203/2, severity := 35, reliability := 25,
        phase_importance := 20, consistency := 27/2, progress_modifier := 8 }
    ∧ (classify_coaching_issue "hip_rotation" 60 "High" (some 8)
        90).classification = "CRITICAL" := by
  constructor
  · have h1 : strContains (lowerStr "hip_rotation") "angle" = false := by
      decide
    have h2 : strContains (lowerStr "hip_rotation") "rotation" = true := by
      decide
    have h3 : lowerStr "contact" = "contact" := by decide
    simp only [compute_issue_priority_score, h1, h2, h3]
    norm_num
  · exact (claim1_issue_classifier_rules "hip_rotation" 60 "High" (some 8)
      90).2.2 (by decide) rfl (by decide)

/-- C6: the five components of the Priority Scorer are bounded as the spec
states whenever the phase-stability input lies in [0,100], and the total is
their sum. -/
theorem claim6_priority_score_bounds (metric_name : String) (deviation : ℚ)
    (phase reliability_level : String)
    (phase_stability_score progress_delta : ℚ)
    (h0 : 0 ≤ phase_stability_score) (h100 : phase_stability_score ≤ 100) :
    0 ≤ (compute_issue_priority_score metric_name deviation phase
          reliability_level phase_stability_score progress_delta).severity
    ∧ (compute_issue_priority_score metric_name deviation phase
        reliability_level phase_stability_score progress_delta).severity ≤ 40
    ∧ 5 ≤ (compute_issue_priority_score metric_name deviation phase
        reliability_level phase_stability_score progress_delta).reliability
    ∧ (compute_issue_priority_score metric_name deviation phase
        reliability_level phase_stability_score
        progress_delta).reliability ≤ 25
    ∧ 8 ≤ (compute_issue_priority_score metric_name deviation phase
        reliability_level phase_stability_score
        progress_delta).phase_importance
    ∧ (compute_issue_priority_score metric_name deviation phase
        reliability_level phase_stability_score
        progress_delta).phase_importance ≤ 20
    ∧ 0 ≤ (compute_issue_priority_score metric_name deviation phase
        reliability_level phase_stability_score progress_delta).consistency
    ∧ (compute_issue_priority_score metric_name deviation phase
        reliability_level phase_stability_score
        progress_delta).consistency ≤ 15
    ∧ -10 ≤ (compute_issue_priority_score metric_name deviation phase
        reliability_level phase_stability_score
        progress_delta).progress_modifier
    ∧ (compute_issue_priority_score metric_name deviation phase
        reliability_level phase_stability_score
        progress_delta).progress_modifier ≤ 10
    ∧ (compute_issue_priority_score metric_name deviation phase
        reliability_level phase_stability_score progress_delta).total_score =
      (compute_issue_priority_score metric_name deviation phase
          reliability_level phase_stability_score progress_delta).severity
        + (compute_issue_priority_score metric_name deviation phase
            reliability_level phase_stability_score
            progress_delta).reliability
        + (compute_issue_priority_score metric_name deviation phase
            reliability_level phase_stability_score
            progress_delta).phase_importance
        + (compute_issue_priority_score metric_name deviation phase
            reliability_level phase_stability_score
            progress_delta).consistency
        + (compute_issue_priority_score metric_name deviation phase
            reliability_level phase_stability_score
            progress_delta).progress_modifier := by
  simp only [compute_issue_priority_score]
  refine ⟨?_, ?_, ?_, ?_, ?_, ?_, ?_, ?_, ?_, ?_, trivial⟩
  · split_ifs <;> norm_num
  · split_ifs <;> norm_num
  · split_ifs <;> norm_num
  · split_ifs <;> norm_num
  · split_ifs <;> norm_num
  · split_ifs <;> norm_num
  · positivity
  · linarith
  · split_ifs with hp hq
    · simp only [le_min_iff]
      constructor <;> linarith
    · exact le_max_left _ _
    · norm_num
  · split_ifs with hp hq
    · exact min_le_left _ _
    · simp only [max_le_iff]
      constructor <;> linarith
    · norm_num

/-- Witness for C6 at the C2 scenario input. -/
theorem claim6_priority_score_bounds_witness :
    0 ≤ (compute_issue_priority_score "hip_rotation" 60 "contact" "High" 90
          8).severity
    ∧ (compute_issue_priority_score "hip_rotation" 60 "contact" "High" 90
        8).severity ≤ 40
    ∧ 5 ≤ (compute_issue_priority_score "hip_rotation" 60 "contact" "High"
        90 8).reliability
    ∧ (compute_issue_priority_score "hip_rotation" 60 "contact" "High" 90
        8).reliability ≤ 25
    ∧ 8 ≤ (compute_issue_priority_score "hip_rotation" 60 "contact" "High"
        90 8).phase_importance
    ∧ (compute_issue_priority_score "hip_rotation" 60 "contact" "High" 90
        8).phase_importance ≤ 20
    ∧ 0 ≤ (compute_issue_priority_score "hip_rotation" 60 "contact" "High"
        90 8).consistency
    ∧ (compute_issue_priority_score "hip_rotation" 60 "contact" "High" 90
        8).consistency ≤ 15
    ∧ -10 ≤ (compute_issue_priority_score "hip_rotation" 60 "contact"
        "High" 90 8).progress_modifier
    ∧ (compute_issue_priority_score "hip_rotation" 60 "contact" "High" 90
        8).progress_modifier ≤ 10
    ∧ (compute_issue_priority_score "hip_rotation" 60 "contact" "High" 90
        8).total_score =
      (compute_issue_priority_score "hip_rotation" 60 "contact" "High" 90
          8).severity
        + (compute_issue_priority_score "hip_rotation" 60 "contact" "High"
            90 8).reliability
        + (compute_issue_priority_score "hip_rotation" 60 "contact" "High"
            90 8).phase_importance
        + (compute_issue_priority_score "hip_rotation" 60 "contact" "High"
            90 8).consistency
        + (compute_issue_priority_score "hip_rotation" 60 "contact" "High"
            90 8).progress_modifier :=
  claim6_priority_score_bounds "hip_rotation" 60 "contact" "High" 90 8
    (by decide) (by decide)

/-- C8: appending the same record list twice to a fresh store leaves the
two copies in order (2·n records, no deduplication), and appending the empty
list returns success and leaves any store untouched. -/
theorem claim8_outcome_append_only (outcomes : List OutcomeRecord) :
    load_existing_outcomes
        (save_drill_outcomes outcomes
          (save_drill_outcomes outcomes StoreFile.absent true).1 true).1 =
      outcomes ++ outcomes
    ∧ (load_existing_outcomes
        (save_drill_outcomes outcomes
          (save_drill_outcomes outcomes StoreFile.absent true).1
          true).1).length = 2 * outcomes.length
    ∧ ∀ (store : StoreFile) (write_ok : Bool),
        save_drill_outcomes [] store write_ok = (store, true) := by
  by_cases h : outcomes = []
  · subst h
    refine ⟨rfl, rfl, ?_⟩
    intro store write_ok
    rfl
  · have hne : outcomes.isEmpty = false := by
      simpa [List.isEmpty_iff] using h
    refine ⟨?_, ?_, ?_⟩
    · simp [save_drill_outcomes, load_existing_outcomes, hne]
    · simp [save_drill_outcomes, load_existing_outcomes, hne, two_mul]
    · intro store write_ok
      rfl

/-- C9: on the corrupt store the writer resets to the empty history and
appends on top of it; a failed write returns `False` (the writer and the
scorer are total functions of the modelled store state: no error
propagates); the confidence scorer returns the empty result on a corrupt or
absent store. -/
theorem claim9_store_error_recovery (outcomes : List OutcomeRecord)
    (store : StoreFile) (h : outcomes ≠ []) :
    save_drill_outcomes outcomes StoreFile.corrupt true =
      (StoreFile.records outcomes, true)
    ∧ save_drill_outcomes outcomes store false = (store, false)
    ∧ compute_drill_confidence_scores StoreFile.corrupt = []
    ∧ compute_drill_confidence_scores StoreFile.absent = [] := by
  have hne : outcomes.isEmpty = false := by
    simpa [List.isEmpty_iff] using h
  refine ⟨?_, ?_, rfl, rfl⟩
  · simp [save_drill_outcomes, load_existing_outcomes, hne]
  · simp [save_drill_outcomes, hne]

/-- Witness for C9 with one concrete record. -/
theorem claim9_store_error_recovery_witness :
    save_drill_outcomes [claim3_record (-10)] StoreFile.corrupt true =
      (StoreFile.records [claim3_record (-10)], true)
    ∧ save_drill_outcomes [claim3_record (-10)] (StoreFile.records [])
        false = (StoreFile.records [], false)
    ∧ compute_drill_confidence_scores StoreFile.corrupt = []
    ∧ compute_drill_confidence_scores StoreFile.absent = [] :=
  claim9_store_error_recovery [claim3_record (-10)] (StoreFile.records [])
    (by decide)

/-- C7: when the three selection loops produce no critical and no priority
drill, the recommender injects exactly one drill — the first
`general_technique` drill, at moderate intensity — into the priority list,
and in every case the union of critical and priority drills is
non-empty. -/
theorem claim7_drill_fallback (adaptive_focus : AdaptiveFocus) :
    ((drill_recommendations_raw adaptive_focus
        get_drill_knowledge_base).critical_drills = [] →
      (drill_recommendations_raw adaptive_focus
        get_drill_knowledge_base).priority_drills = [] →
      (generate_adaptive_drill_recommendations adaptive_focus
          get_drill_knowledge_base).critical_drills = []
      ∧ (generate_adaptive_drill_recommendations adaptive_focus
          get_drill_knowledge_base).priority_drills.map
          (fun d => (d.issue_metric, d.drill_name, d.intensity_level)) =
        [("general", "Slow-Motion Shadow Strokes", "moderate")])
    ∧ (generate_adaptive_drill_recommendations adaptive_focus
          get_drill_knowledge_base).critical_drills
        ++ (generate_adaptive_drill_recommendations adaptive_focus
          get_drill_knowledge_base).priority_drills ≠ [] := by
  have hfb : fallback_general_drill get_drill_knowledge_base = some
      { issue_metric := "general", issue_phase := "all"
        drill_name := "Slow-Motion Shadow Strokes"
        drill_description :=
          "Execute full stroke in slow motion, focus on feeling each phase"
        intensity_level := "moderate", prescription := "50 reps"
        rationale := "Builds muscle memory and movement awareness"
        priority_score := 50, urgency := "MODERATE" } := rfl
  constructor
  · intro h1 h2
    simp [generate_adaptive_drill_recommendations, h1, h2, hfb]
  · by_cases h1 : (drill_recommendations_raw adaptive_focus
        get_drill_knowledge_base).critical_drills = []
    · by_cases h2 : (drill_recommendations_raw adaptive_focus
          get_drill_knowledge_base).priority_drills = []
      · simp [generate_adaptive_drill_recommendations, h1, h2, hfb]
      · simp [generate_adaptive_drill_recommendations, h1, h2, hfb]
    · simp [generate_adaptive_drill_recommendations, h1]

/-- Witness for C7: an empty focus produces no critical and no priority
drills from the loops, so the fallback fires. -/
theorem claim7_drill_fallback_witness :
    (generate_adaptive_drill_recommendations ⟨[], [], [], [], [], []⟩
        get_drill_knowledge_base).critical_drills = []
    ∧ (generate_adaptive_drill_recommendations ⟨[], [], [], [], [], []⟩
        get_drill_knowledge_base).priority_drills.map
        (fun d => (d.issue_metric, d.drill_name, d.intensity_level)) =
      [("general", "Slow-Motion Shadow Strokes", "moderate")]
    ∧ (generate_adaptive_drill_recommendations ⟨[], [], [], [], [], []⟩
          get_drill_knowledge_base).critical_drills
        ++ (generate_adaptive_drill_recommendations ⟨[], [], [], [], [], []⟩
          get_drill_knowledge_base).priority_drills ≠ [] :=
  ⟨((claim7_drill_fallback ⟨[], [], [], [], [], []⟩).1 rfl rfl).1,
   ((claim7_drill_fallback ⟨[], [], [], [], [], []⟩).1 rfl rfl).2,
   (claim7_drill_fallback ⟨[], [], [], [], [], []⟩).2⟩

/-- C5 counterexample: with an existing session directory lexicographically
greater than the current session id, the lookup returns that greater id —
not the largest id strictly below the current one (which would be
`2025-01-01_00-00-00`), so the claim as stated is false. -/
theorem claim5_previous_session_counterexample :
    find_previous_session
        ["2025-01-01_00-00-00", "2025-12-31_00-00-00"]
        (some "2025-06-01_00-00-00") = some "2025-12-31_00-00-00"
    ∧ ¬ ("2025-12-31_00-00-00".data < "2025-06-01_00-00-00".data) := by
  decide

/-- C5 amended: the lookup returns the lexicographically largest directory
name among those matching the 19-character timestamp format and differing
from the current session id (with no restriction to names below the current
id), and returns none exactly when no such directory exists. -/
theorem claim5_previous_session_amended (dirs : List String)
    (current_session_id : Option String) :
    (find_previous_session dirs current_session_id = none ↔
      session_candidates dirs current_session_id = [])
    ∧ ∀ s, find_previous_session dirs current_session_id = some s →
        s ∈ session_candidates dirs current_session_id
        ∧ ∀ t ∈ session_candidates dirs current_session_id,
            t.data ≤ s.data := by
  have hperm := List.perm_insertionSort strGE
    (session_candidates dirs current_session_id)
  have hsort := List.sorted_insertionSort strGE
    (session_candidates dirs current_session_id)
  constructor
  · rw [find_previous_session, List.head?_eq_none_iff]
    constructor
    · intro hnil
      have h2 := hperm
      rw [hnil] at h2
      exact h2.symm.eq_nil
    · intro hnil
      rw [hnil]
      rfl
  · intro s hs
    rw [find_previous_session] at hs
    rcases hcons : List.insertionSort strGE
        (session_candidates dirs current_session_id) with _ | ⟨a, tail⟩
    · rw [hcons] at hs
      simp at hs
    · rw [hcons] at hs
      simp only [List.head?_cons, Option.some.injEq] at hs
      rw [hcons] at hperm hsort
      subst hs
      constructor
      · exact hperm.mem_iff.mp (List.mem_cons_self _ _)
      · intro t ht
        have ht' : t ∈ a :: tail := hperm.mem_iff.mpr ht
        rcases List.mem_cons.mp ht' with h | h
        · simp [h]
        · exact List.rel_of_sorted_cons hsort t h

/-- Witness for C5 amended at a concrete directory listing (note the
ill-formatted name and the current session are filtered out, and the
returned session is the maximum of what remains). -/
theorem claim5_previous_session_amended_witness :
    "2025-12-31_00-00-00" ∈ session_candidates
        ["2025-01-01_00-00-00", "2025-12-31_00-00-00", "notasession",
          "2025-06-01_00-00-00"] (some "2025-06-01_00-00-00")
    ∧ ∀ t ∈ session_candidates
        ["2025-01-01_00-00-00", "2025-12-31_00-00-00", "notasession",
          "2025-06-01_00-00-00"] (some "2025-06-01_00-00-00"),
        t.data ≤ "2025-12-31_00-00-00".data :=
  (claim5_previous_session_amended
    ["2025-01-01_00-00-00", "2025-12-31_00-00-00", "notasession",
      "2025-06-01_00-00-00"] (some "2025-06-01_00-00-00")).2
    "2025-12-31_00-00-00" (by decide)

/-- The four classification filters split every multiset count. -/
lemma count_classification_partition (l : List AdaptiveCue)
    (h : ∀ x ∈ l, x.classification
      ∈ (["CRITICAL", "PRIORITY", "MONITOR", "SUPPRESS"] : List String))
    (c : AdaptiveCue) :
    (l.filter (fun x => x.classification = "CRITICAL")).count c
      + (l.filter (fun x => x.classification = "PRIORITY")).count c
      + (l.filter (fun x => x.classification = "MONITOR")).count c
      + (l.filter (fun x => x.classification = "SUPPRESS")).count c
      = l.count c := by
  induction l with
  | nil => simp
  | cons a t ih =>
    have ha := h a (List.mem_cons_self a t)
    have iht := ih (fun x hx => h x (List.mem_cons_of_mem a hx))
    simp only [List.mem_cons, List.mem_singleton, List.not_mem_nil,
      or_false] at ha
    rcases ha with ha | ha | ha | ha <;>
      simp [List.filter_cons, List.count_cons, ha] <;> omega

/-- The four classification filters split the length. -/
lemma length_classification_partition (l : List AdaptiveCue)
    (h : ∀ x ∈ l, x.classification
      ∈ (["CRITICAL", "PRIORITY", "MONITOR", "SUPPRESS"] : List String)) :
    (l.filter (fun x => x.classification = "CRITICAL")).length
      + (l.filter (fun x => x.classification = "PRIORITY")).length
      + (l.filter (fun x => x.classification = "MONITOR")).length
      + (l.filter (fun x => x.classification = "SUPPRESS")).length
      = l.length := by
  induction l with
  | nil => simp
  | cons a t ih =>
    have ha := h a (List.mem_cons_self a t)
    have iht := ih (fun x hx => h x (List.mem_cons_of_mem a hx))
    simp only [List.mem_cons, List.mem_singleton, List.not_mem_nil,
      or_false] at ha
    rcases ha with ha | ha | ha | ha <;>
      simp [List.filter_cons, ha] <;> omega

/-- C10: `all_adaptive_cues` is sorted by descending priority score, and the
four classification lists partition it: per-cue counts add up, the four
lengths sum to the full length, which equals the input length. -/
theorem claim10_adaptive_focus_partition (ranked_cues : List RankedCue)
    (user_reliability : List (String × String))
    (user_phase_stability : List (String × ℚ))
    (progress_deltas : List (String × ℚ)) :
    List.Sorted cueGE (generate_adaptive_coaching_focus ranked_cues
        user_reliability user_phase_stability
        progress_deltas).all_adaptive_cues
    ∧ (∀ c : AdaptiveCue,
        (generate_adaptive_coaching_focus ranked_cues user_reliability
            user_phase_stability progress_deltas).critical.count c
        + (generate_adaptive_coaching_focus ranked_cues user_reliability
            user_phase_stability progress_deltas).priority.count c
        + (generate_adaptive_coaching_focus ranked_cues user_reliability
            user_phase_stability progress_deltas).monitor.count c
        + (generate_adaptive_coaching_focus ranked_cues user_reliability
            user_phase_stability progress_deltas).suppressed.count c
        = (generate_adaptive_coaching_focus ranked_cues user_reliability
            user_phase_stability
            progress_deltas).all_adaptive_cues.count c)
    ∧ (generate_adaptive_coaching_focus ranked_cues user_reliability
          user_phase_stability progress_deltas).critical.length
        + (generate_adaptive_coaching_focus ranked_cues user_reliability
            user_phase_stability progress_deltas).priority.length
        + (generate_adaptive_coaching_focus ranked_cues user_reliability
            user_phase_stability progress_deltas).monitor.length
        + (generate_adaptive_coaching_focus ranked_cues user_reliability
            user_phase_stability progress_deltas).suppressed.length
        = (generate_adaptive_coaching_focus ranked_cues user_reliability
            user_phase_stability
            progress_deltas).all_adaptive_cues.length
    ∧ (generate_adaptive_coaching_focus ranked_cues user_reliability
          user_phase_stability
          progress_deltas).all_adaptive_cues.length
        = ranked_cues.length := by
  simp only [generate_adaptive_coaching_focus]
  have hmem : ∀ x ∈ List.insertionSort cueGE (ranked_cues.map
      (build_adaptive_cue user_reliability user_phase_stability
        progress_deltas)),
      x.classification
        ∈ (["CRITICAL", "PRIORITY", "MONITOR", "SUPPRESS"] : List String)
      := by
    intro x hx
    have hx' := (List.perm_insertionSort cueGE _).mem_iff.mp hx
    rcases List.mem_map.mp hx' with ⟨cue_data, _, rfl⟩
    have hc := classify_classification_mem cue_data.metric_name
      cue_data.deviation
      ((user_reliability.lookup cue_data.metric_name).getD "Medium")
      (some ((progress_deltas.lookup cue_data.phase).getD 0))
      ((user_phase_stability.lookup cue_data.phase).getD 75)
    simpa [build_adaptive_cue] using hc
  refine ⟨List.sorted_insertionSort cueGE _, ?_, ?_, ?_⟩
  · intro c
    exact count_classification_partition _ hmem c
  · exact length_classification_partition _ hmem
  · rw [(List.perm_insertionSort cueGE _).length_eq, List.length_map]

/-- Evaluation of the statistics of the C4 counterexample column:
`hip_rotation` samples 175, 175, 225, 225 give mean 200, population std 25,
cv 1/8. -/
lemma claim4_stats_eval : compute_confidence_statistics claim4_features =
    [("hip_rotation", { mean := 200, std := 25, cv := 1/8 })] := by
  have hhip : metric_stats_entry claim4_features "hip_rotation" =
      some ("hip_rotation", { mean := 200, std := 25, cv := 1/8 }) := by
    simp only [metric_stats_entry]
    rw [show claim4_features.lookup "hip_rotation" =
      some [some (175:ℚ), some 175, some 225, some 225] from rfl]
    have hfm : List.filterMap id
        [some (175:ℚ), some 175, some 225, some 225] =
        [175, 175, 225, 225] := rfl
    simp only [hfm]
    rw [if_neg (by decide : ¬([(175:ℚ), 175, 225, 225].isEmpty = true))]
    have hmean : (([(175:ℚ), 175, 225, 225].map (fun v : ℚ => (v : ℝ))).sum)
        / (([(175:ℚ), 175, 225, 225].length : ℕ) : ℝ) = 200 := by
      norm_num
    rw [hmean]
    have harg : (([(175:ℚ), 175, 225, 225].map
        (fun v : ℚ => ((v : ℝ) - 200) ^ 2)).sum)
        / (([(175:ℚ), 175, 225, 225].length : ℕ) : ℝ) = 625 := by
      norm_num
    rw [harg]
    have hsqrt : Real.sqrt 625 = 25 := by
      rw [show (625:ℝ) = 25^2 by norm_num, Real.sqrt_sq (by norm_num)]
    rw [hsqrt]
    norm_num
  have hnone : ∀ m ∈ (["left_shoulder_angle", "right_shoulder_angle",
      "left_elbow_angle", "right_elbow_angle", "left_knee_angle",
      "right_knee_angle", "spine_lean", "stance_width_normalized"] :
        List String),
      metric_stats_entry claim4_features m = none := by
    intro m hm
    simp only [List.mem_cons, List.not_mem_nil, or_false] at hm
    rcases hm with rfl | rfl | rfl | rfl | rfl | rfl | rfl | rfl <;>
      simp [metric_stats_entry, claim4_features, List.lookup]
  rw [compute_confidence_statistics]
  simp only [key_metrics, List.filterMap_cons, List.filterMap_nil, hhip]
  rw [hnone "left_shoulder_angle" (by simp),
    hnone "right_shoulder_angle" (by simp),
    hnone "left_elbow_angle" (by simp), hnone "right_elbow_angle" (by simp),
    hnone "left_knee_angle" (by simp), hnone "right_knee_angle" (by simp),
    hnone "spine_lean" (by simp), hnone "stance_width_normalized" (by simp)]

/-- C4 counterexample: `hip_rotation` is a rotation metric, yet with samples
175, 175, 225, 225 (population std = 25 > 20, which the claim's
angle-and-rotation standard-deviation rule maps to Low) the assessor
classifies it High, because the code branches on the substring `angle` only
and so judges `hip_rotation` by its coefficient of variation
(1/8 < 0.15). -/
theorem claim4_reliability_counterexample :
    assess_measurement_reliability (compute_confidence_statistics
        claim4_features) =
      [("hip_rotation",
        { level := "High", description := "Very stable measurement",
          cv := 1/8, std := 25 })]
    ∧ claimC4_level "hip_rotation" 25 (1/8) = "Low" := by
  constructor
  · rw [claim4_stats_eval]
    simp only [assess_measurement_reliability, assess_entry, List.map_cons,
      List.map_nil]
    rw [if_neg (by simp [(by decide :
      strContains "hip_rotation" "angle" = false)])]
    rw [if_pos (by norm_num : (1/8 : ℝ) < 3/20)]
  · have h : (strContains "hip_rotation" "angle"
        || strContains "hip_rotation" "rotation") = true := by decide
    simp only [claimC4_level, h, if_true]
    rw [if_neg (by norm_num : ¬((25:ℝ) < 10)),
      if_neg (by norm_num : ¬((25:ℝ) ≤ 20))]

/-- C4 amended: only metrics whose name contains `angle` are classified by
the standard-deviation ladder; every other metric — rotation metrics such
as `hip_rotation` included — is classified by the coefficient-of-variation
ladder; and a metric absent from the table or with zero non-missing
samples is omitted from the statistics (hence from the assessment)
entirely. -/
theorem claim4_reliability_rules_amended
    (features : List (String × List (Option ℚ))) (metric : String)
    (stats : MetricStats) :
    ((compute_confidence_statistics features).map Prod.fst =
      key_metrics.filter (fun m =>
        match features.lookup m with
        | none => false
        | some col => !(col.filterMap id).isEmpty))
    ∧ (assess_entry metric stats).level =
        amendedC4_level metric stats.std stats.cv
    ∧ (assess_measurement_reliability (compute_confidence_statistics
        features)).map Prod.fst =
      (compute_confidence_statistics features).map Prod.fst := by
  refine ⟨?_, ?_, ?_⟩
  · rw [compute_confidence_statistics]
    induction key_metrics with
    | nil => rfl
    | cons m t ih =>
      simp only [List.filterMap_cons, List.filter_cons]
      cases hm : features.lookup m with
      | none => simpa [metric_stats_entry, hm] using ih
      | some col =>
        cases hv : (col.filterMap id).isEmpty with
        | true => simpa [metric_stats_entry, hm, hv] using ih
        | false => simpa [metric_stats_entry, hm, hv] using ih
  · simp only [assess_entry, amendedC4_level]
    split_ifs <;> rfl
  · simp [assess_measurement_reliability]

/-- Full evaluation of the Confidence Scorer on the claim C3 store. -/
lemma claim3_scores_eval : compute_drill_confidence_scores claim3_store =
    [("X",
      { usage_count := 5, avg_delta := -10, std_delta := Real.sqrt 2,
        high_reliability_ratio := 1, consistency := 1 - Real.sqrt 2 / 10,
        confidence_score := 9/10 - Real.sqrt 2 / 40,
        confidence_level := "High" })] := by
  have hscore : score_drill_group claim3_records =
      { usage_count := 5, avg_delta := -10, std_delta := Real.sqrt 2,
        high_reliability_ratio := 1, consistency := 1 - Real.sqrt 2 / 10,
        confidence_score := 9/10 - Real.sqrt 2 / 40,
        confidence_level := "High" } := by
    have h36 : Real.sqrt 36 = 6 := by
      rw [show (36:ℝ) = 6^2 by norm_num, Real.sqrt_sq (by norm_num)]
    have h100 : Real.sqrt 100 = 10 := by
      rw [show (100:ℝ) = 10^2 by norm_num, Real.sqrt_sq (by norm_num)]
    have hs6 : Real.sqrt 2 ≤ 6 := h36 ▸ Real.sqrt_le_sqrt (by norm_num)
    have hs10 : Real.sqrt 2 ≤ 10 := h100 ▸ Real.sqrt_le_sqrt (by norm_num)
    have hdeltas : claim3_records.map (fun r => r.delta) =
        [-10, -12, -8, -11, -9] := rfl
    have hcons : consistency_of (-10) (Real.sqrt 2) =
        1 - Real.sqrt 2 / 10 := by
      rw [consistency_of, if_pos (by norm_num : |(-10:ℝ)| > 1/10),
        show |(-10:ℝ)| = 10 by norm_num,
        min_eq_left (by linarith : Real.sqrt 2 / 10 ≤ 1),
        max_eq_right (by linarith : (0:ℝ) ≤ 1 - Real.sqrt 2 / 10)]
    have himpr : improvement_score_of (-10) = 3/4 := by
      rw [improvement_score_of, show (1/2 - (-10:ℝ)/40) = 3/4 by norm_num,
        min_eq_right (by norm_num : (3/4:ℝ) ≤ 1),
        max_eq_right (by norm_num : (0:ℝ) ≤ 3/4)]
    have hsamp : sample_score_of 5 = 1 := by
      rw [sample_score_of, show ((5:ℕ):ℝ)/5 = 1 by norm_num, min_self]
    simp only [score_drill_group]
    rw [hdeltas]
    rw [show List.length [(-10:ℚ), -12, -8, -11, -9] = 5 from rfl]
    have havg : (([(-10:ℚ), -12, -8, -11, -9]).map
        (fun d : ℚ => (d:ℝ))).sum / ((5:ℕ):ℝ) = -10 := by norm_num
    rw [havg]
    rw [if_pos (show (1:ℕ) < 5 by decide)]
    have harg : (([(-10:ℚ), -12, -8, -11, -9]).map
        (fun d : ℚ => ((d:ℝ) - (-10))^2)).sum / ((5:ℕ):ℝ) = 2 := by
      norm_num
    rw [harg]
    rw [show (claim3_records.filter
      (fun r => r.reliability = "High")).length = 5 from by decide]
    rw [if_pos (show (0:ℕ) < 5 by decide)]
    rw [show ((5:ℕ):ℝ)/((5:ℕ):ℝ) = 1 by norm_num]
    rw [hcons, himpr, hsamp]
    rw [show (40/100 * (3/4) + 25/100 * 1 + 25/100 * (1 - Real.sqrt 2 / 10)
      + 10/100 * 1 : ℝ) = 9/10 - Real.sqrt 2 / 40 by ring]
    rw [if_pos (by linarith : (9/10 - Real.sqrt 2 / 40 : ℝ) ≥ 75/100)]
  simp only [compute_drill_confidence_scores, claim3_store]
  rw [if_neg (by decide : ¬(claim3_records.isEmpty = true))]
  rw [show group_outcomes_by_drill claim3_records = [("X", claim3_records)]
    from by decide]
  simp only [List.map_cons, List.map_nil, hscore]

/-- C3 counterexample: on the claimed 5-record store the confidence score of
drill "X" is 9/10 − √2/40 ≈ 0.8646, strictly below the claimed 0.9148
(= 2287/2500), so the claimed value is wrong. -/
theorem claim3_confidence_score_counterexample :
    ((compute_drill_confidence_scores claim3_store).lookup "X").map
      (fun c => c.confidence_score) = some (9/10 - Real.sqrt 2 / 40)
    ∧ (9/10 - Real.sqrt 2 / 40 : ℝ) < 2287/2500 := by
  have hpos : (0:ℝ) < Real.sqrt 2 := Real.sqrt_pos.mpr (by norm_num)
  constructor
  · rw [claim3_scores_eval]
    rfl
  · linarith

/-- C3 amended: on the 5-record store for drill "X" the scorer returns
avg_delta = −10, std_delta = √2, high_reliability_ratio = 1,
consistency = 1 − √2/10 (between 0.858 and 0.859), improvement 3/4, sample
score 1, confidence_score = 9/10 − √2/40 (between 0.8646 and 0.8647 — not
the claimed 0.9148), and level High. -/
theorem claim3_confidence_scenario_amended :
    compute_drill_confidence_scores claim3_store =
      [("X",
        { usage_count := 5, avg_delta := -10,
          std_delta := Real.sqrt 2, high_reliability_ratio := 1,
          consistency := 1 - Real.sqrt 2 / 10,
          confidence_score := 9/10 - Real.sqrt 2 / 40,
          confidence_level := "High" })]
    ∧ improvement_score_of (-10) = 3/4
    ∧ sample_score_of 5 = 1
    ∧ (0.858 : ℝ) < 1 - Real.sqrt 2 / 10
    ∧ (1 - Real.sqrt 2 / 10 : ℝ) < 0.859
    ∧ (0.8646 : ℝ) < 9/10 - Real.sqrt 2 / 40
    ∧ (9/10 - Real.sqrt 2 / 40 : ℝ) < 0.8647 := by
  have hlo : (1.414 : ℝ) < Real.sqrt 2 := by
    have := Real.sqrt_lt_sqrt (by norm_num : (0:ℝ) ≤ 1.999396)
      (by norm_num : (1.999396:ℝ) < 2)
    rwa [show (1.999396:ℝ) = 1.414^2 by norm_num,
      Real.sqrt_sq (by norm_num)] at this
  have hhi : Real.sqrt 2 < 1.4143 := by
    have := Real.sqrt_lt_sqrt (by norm_num : (0:ℝ) ≤ 2)
      (by norm_num : (2:ℝ) < 2.00024449)
    rwa [show (2.00024449:ℝ) = 1.4143^2 by norm_num,
      Real.sqrt_sq (by norm_num)] at this
  refine ⟨claim3_scores_eval, ?_, ?_, by linarith, by linarith, by linarith,
    by linarith⟩
  · rw [improvement_score_of, show (1/2 - (-10:ℝ)/40) = 3/4 by norm_num,
      min_eq_right (by norm_num : (3/4:ℝ) ≤ 1),
      max_eq_right (by norm_num : (0:ℝ) ≤ 3/4)]
  · rw [sample_score_of, show ((5:ℕ):ℝ)/5 = 1 by norm_num, min_self]

end CoachAI
